import Mathlib

/-!
Shallow embedding of the MoodMate backend's AI-quota-gated emotion-analysis
pipeline (src/ai/views.py, src/ai/services.py, src/users/models.py,
src/moods/models.py), together with theorems settling the specification
claims about it.

Conventions of the embedding:
* Machine time is abstracted: `now : Nat` stands for the current timestamp
  (`timezone.now()`), `today : Nat` for the current calendar day
  (`date.today()`); dates compare by `<` exactly as Python `date` values do.
* Python `None`-able fields become `Option`; Python dict lookups with a
  default become `dictGet`/`Option.getD`.
* Floats are modelled as exact rationals `ℚ`; `round(x, 3)` is modelled by
  round-half-to-even at three decimals (`round3`), `int(x)` by truncation
  toward zero (`int_trunc`).
* The database row `UserProfile` is threaded functionally: each operation
  returns the updated profile.
-/

/-- Subscription plans, from `UserProfile.PLAN_CHOICES` in src/users/models.py. -/
inductive Plan where
  | FREE
  | PREMIUM
deriving DecidableEq, Repr

/-- The externally configured values read from `django.conf.settings`
(src/moodmate_backend/settings.py). -/
structure Settings where
  FREE_DAILY_AI_CALLS : Nat
  PREMIUM_DAILY_AI_CALLS : Nat
  HUGGINGFACE_API_TOKEN : Option String
deriving DecidableEq, Repr

/-- The quota-relevant fields of `UserProfile` (src/users/models.py, lines 9-50). -/
structure UserProfile where
  plan : Plan
  premium_expires_at : Option Nat
  daily_ai_calls : Nat
  last_ai_calls_reset : Option Nat
deriving DecidableEq, Repr

/-- `UserProfile.is_premium_active` (src/users/models.py, lines 31-38):
premium is active iff the plan is PREMIUM, the expiry is set, and
`timezone.now() < premium_expires_at`. -/
def UserProfile.is_premium_active (p : UserProfile) (now : Nat) : Bool :=
  if p.plan ≠ Plan.PREMIUM then false
  else
    match p.premium_expires_at with
    | none => false
    | some e => decide (now < e)

/-- `ensure_daily_reset` (src/ai/views.py, lines 21-34): zero the daily
counter and stamp today's date when the last reset is missing or strictly
before today. -/
def ensure_daily_reset (today : Nat) (p : UserProfile) : UserProfile :=
  match p.last_ai_calls_reset with
  | none => { p with daily_ai_calls := 0, last_ai_calls_reset := some today }
  | some d =>
      if d < today then
        { p with daily_ai_calls := 0, last_ai_calls_reset := some today }
      else p

/-- Payload of the 402 quota-exceeded response (src/ai/views.py, lines 57-62). -/
structure QuotaErrorBody where
  current_calls : Nat
  max_calls : Nat
  plan : Plan
deriving DecidableEq, Repr

/-- The per-plan ceiling chosen in `check_ai_quota` (src/ai/views.py, lines 50-54). -/
def quota_max_calls (s : Settings) (now : Nat) (p : UserProfile) : Nat :=
  if p.is_premium_active now then s.PREMIUM_DAILY_AI_CALLS
  else s.FREE_DAILY_AI_CALLS

/-- `check_ai_quota` (src/ai/views.py, lines 37-65): reset first, pick the
plan ceiling, reject with a 402 body when `daily_ai_calls >= max_calls`.
Returns the post-reset profile and `some` error body exactly when the
quota is exhausted (`has_quota = (· .isNone)`). -/
def check_ai_quota (s : Settings) (now today : Nat) (p : UserProfile) :
    UserProfile × Option QuotaErrorBody :=
  let profile := ensure_daily_reset today p
  let max_calls := quota_max_calls s now profile
  if profile.daily_ai_calls ≥ max_calls then
    (profile, some ⟨profile.daily_ai_calls, max_calls, profile.plan⟩)
  else
    (profile, none)

/-- `increment_ai_calls` (src/ai/views.py, lines 68-78). -/
def increment_ai_calls (p : UserProfile) : UserProfile :=
  { p with daily_ai_calls := p.daily_ai_calls + 1 }

/-- Python `str.lower()`: character-wise lowering. -/
def pyLower (s : String) : String := ⟨s.data.map Char.toLower⟩

/-- Python `str.strip()`: drop whitespace from both ends. -/
def pyStrip (s : String) : String :=
  ⟨((s.data.dropWhile Char.isWhitespace).reverse.dropWhile
      Char.isWhitespace).reverse⟩

/-- Python `s[:n]`: keep the first `n` characters. -/
def pyTake (s : String) (n : Nat) : String := ⟨s.data.take n⟩

/-- Python-style dict lookup with miss reported as `none`
(`dict.get(key)` over the literal dictionaries in src/ai/services.py). -/
def dictGet {α : Type} (m : List (String × α)) (k : String) : Option α :=
  match m with
  | [] => none
  | (k₁, v) :: rest => if k = k₁ then some v else dictGet rest k

/-- Whether `settings.HUGGINGFACE_API_TOKEN` is truthy
(`if not self.api_token` in src/ai/services.py, line 46). -/
def tokenConfigured : Option String → Bool
  | none => false
  | some s => !(s == "")

/-- Round-half-to-even to an integer, the rounding Python's `round` uses. -/
def roundHalfEven (q : ℚ) : ℤ :=
  if q - ⌊q⌋ < 1/2 then ⌊q⌋
  else if (1 : ℚ)/2 < q - ⌊q⌋ then ⌊q⌋ + 1
  else if ⌊q⌋ % 2 = 0 then ⌊q⌋ else ⌊q⌋ + 1

/-- Python `round(x, 3)` on the exact-rational model of floats. -/
def round3 (q : ℚ) : ℚ := (roundHalfEven (q * 1000) : ℚ) / 1000

/-- Python `int(x)`: truncation toward zero. -/
def int_trunc (q : ℚ) : ℤ := if 0 ≤ q then ⌊q⌋ else ⌈q⌉

/-- The JSON payloads the classifier gateway can receive: entry objects
(with possibly missing/non-string `label` and missing/non-numeric `score`,
both collapsed to `none`), arrays, and anything else. -/
inductive JVal where
  | obj (label : Option String) (score : Option ℚ)
  | arr (xs : List JVal)
  | other

/-- `x['score']` on an entry: `some` when `x` is an object carrying a
numeric score, otherwise the access raises (modelled as `none`). -/
def JVal.getScore : JVal → Option ℚ
  | .obj _ s => s
  | _ => none

/-- `x['label']` on an entry, with `.lower()` applicable only to a string. -/
def JVal.getLabel : JVal → Option String
  | .obj l _ => l
  | _ => none

/-- Score extraction for every entry, as Python's `max(..., key=...)`
performs; any entry without a score raises (modelled as `none`). -/
def extractEntries : List JVal → Option (List (JVal × ℚ))
  | [] => some []
  | v :: vs =>
      match v.getScore with
      | none => none
      | some s => (extractEntries vs).map (fun rest => (v, s) :: rest)

/-- Python's `max(xs, key=key)` fold: a later element replaces the current
best only when its key is strictly greater, so the first maximal element
wins. -/
def pyMax {α : Type} (key : α → ℚ) : α → List α → α
  | best, [] => best
  | best, x :: xs => pyMax key (if key best < key x then x else best) xs

/-- Upstream interaction outcomes for one classification request:
`exn` covers transport errors, timeouts and non-2xx statuses
(`raise_for_status`), `json v` a 2xx response whose body parsed to `v`. -/
inductive HFResp where
  | exn
  | json (v : JVal)

/-- The response-shape handling of `HFClient.analyze_emotion`
(src/ai/services.py, lines 66-90): accept a flat list of entries or take
the inner list when the first element is itself a list; pick the
max-score entry; read its label. Any shape or key failure yields `none`
(the code's fallback / exception paths). -/
def topEntry (emotions : List JVal) : Option (String × ℚ) :=
  match extractEntries emotions with
  | none => none
  | some [] => none
  | some (e :: es) =>
      let top := pyMax (fun p => p.2) e es
      match top.1.getLabel with
      | none => none
      | some l => some (l, top.2)

/-- The dispatch on the payload shape (src/ai/services.py, lines 69-75):
flat list of entries, or the inner list when the first element is itself a
list; anything else is the unexpected-format fallback. -/
def parse_hf_result (v : JVal) : Option (String × ℚ) :=
  match v with
  | .arr (x :: rest) =>
      topEntry
        (match x with
         | .arr inner => inner
         | _ => x :: rest)
  | _ => none

/-- The value object produced by the classifier gateway: `label`, `score`,
and the degraded flag (the `ai_unavailable` key; absent on success, read
back with default `False` by the view). -/
structure EmotionResult where
  label : String
  score : ℚ
  ai_unavailable : Bool
deriving DecidableEq, Repr

/-- The neutral degraded fallback value (src/ai/services.py, lines 48-52,
86-90, 94-98, 101-105). -/
def neutral_result : EmotionResult := ⟨"neutral", 1/2, true⟩

/-- `HFClient.analyze_emotion` (src/ai/services.py, lines 36-105) as a
function of the configured token and the upstream outcome. -/
def HFClient.analyze_emotion (api_token : Option String) (resp : HFResp) :
    EmotionResult :=
  if tokenConfigured api_token = false then neutral_result
  else
    match resp with
    | .exn => neutral_result
    | .json v =>
        match parse_hf_result v with
        | none => neutral_result
        | some (l, sc) => ⟨pyLower l, round3 sc, false⟩

/-- Whether `HFClient.analyze_emotion` issues its outbound request: it does
exactly when a token is configured (the no-token branch returns before the
`requests.post` call). -/
def hf_network_called (api_token : Option String) : Bool :=
  tokenConfigured api_token

/-- `HFClient.emotion_mapping` (src/ai/services.py, lines 122-143). -/
def emotion_mapping : List (String × String) :=
  [("admiration", "joy"), ("amusement", "joy"), ("approval", "content"),
   ("caring", "joy"), ("curiosity", "excited"), ("desire", "excited"),
   ("disappointment", "sadness"), ("disapproval", "anger"),
   ("embarrassment", "anxious"), ("excitement", "excited"),
   ("gratitude", "content"), ("grief", "sadness"), ("love", "joy"),
   ("nervousness", "anxious"), ("optimism", "joy"), ("pride", "content"),
   ("realization", "surprise"), ("relief", "calm"), ("remorse", "sadness"),
   ("confusion", "anxious")]

/-- `HFClient.advice_templates` (src/ai/services.py, lines 21-34). -/
def advice_templates : List (String × String) :=
  [("joy", "You\x27re feeling great! Consider sharing this positive energy with others or engaging in activities you love."),
   ("sadness", "It\x27s okay to feel sad sometimes. Try gentle activities like listening to music, taking a walk, or talking to someone you trust."),
   ("anger", "Take a moment to breathe deeply. Consider what\x27s causing this feeling and whether there\x27s a constructive way to address it."),
   ("fear", "Fear is natural. Break down what\x27s worrying you into smaller, manageable steps. You\x27re stronger than you think."),
   ("surprise", "Unexpected moments can be opportunities for growth. Take time to process what happened and how you feel about it."),
   ("disgust", "Strong negative feelings can be signals. Consider what boundaries you might need to set or changes you want to make."),
   ("anxious", "Try the 4-7-8 breathing technique: breathe in for 4, hold for 7, exhale for 8. Grounding exercises can also help."),
   ("stressed", "Take a 5-minute break. Try progressive muscle relaxation or a short walk. Remember that stress is temporary."),
   ("calm", "You\x27re in a peaceful state. This is a great time for reflection, planning, or enjoying the present moment."),
   ("excited", "Channel this positive energy into something meaningful. Consider activities that align with your goals and values."),
   ("tired", "Rest is important for your wellbeing. Consider what your body and mind need - sleep, nutrition, or a mental break."),
   ("content", "Contentment is a beautiful state. Take a moment to appreciate what\x27s going well in your life right now.")]

/-- The default advice template (src/ai/services.py, line 151). -/
def generic_advice : String :=
  "Take a moment to acknowledge your feelings. Remember that all emotions are valid and temporary."

/-- The disclaimer appended to every advice string (src/ai/services.py,
line 155). -/
def advice_disclaimer : String :=
  " Remember, this is general wellness advice and not a substitute for professional mental health support."

/-- `HFClient.generate_advice` (src/ai/services.py, lines 107-157). -/
def HFClient.generate_advice (emotion_label : String) (_text : String) : String :=
  let emotion_key := pyLower emotion_label
  let advice_key := (dictGet emotion_mapping emotion_key).getD emotion_key
  let advice := (dictGet advice_templates advice_key).getD generic_advice
  advice ++ advice_disclaimer

/-- One curated playlist entry (src/ai/services.py, lines 165-206). -/
structure Playlist where
  title : String
  url : String
deriving DecidableEq, Repr

/-- The `calm` bucket (src/ai/services.py, lines 182-185), also the
universal default of `get_recommendations`. -/
def calm_playlists : List Playlist :=
  [⟨"Peaceful Piano", "https://open.spotify.com/playlist/37i9dQZF1DX4sWSpwq3LiO"⟩,
   ⟨"Nature Sounds", "https://open.spotify.com/playlist/37i9dQZF1DWU0ScTcjJBdj"⟩]

/-- `SpotifyRecommendationService.mood_playlists`
(src/ai/services.py, lines 165-206). -/
def mood_playlists : List (String × List Playlist) :=
  [("happy",
    [⟨"Feel Good Hits", "https://open.spotify.com/playlist/37i9dQZF1DX3rxVfibe1L0"⟩,
     ⟨"Happy Pop", "https://open.spotify.com/playlist/37i9dQZF1DXdPec7aLTmlC"⟩]),
   ("sad",
    [⟨"Sad Songs", "https://open.spotify.com/playlist/37i9dQZF1DX7qK8ma5wgG1"⟩,
     ⟨"Melancholy Indie", "https://open.spotify.com/playlist/37i9dQZF1DWX83CujKHHOn"⟩]),
   ("anxious",
    [⟨"Calm & Peaceful", "https://open.spotify.com/playlist/37i9dQZF1DWU0ScTcjJBdj"⟩,
     ⟨"Focus Flow", "https://open.spotify.com/playlist/37i9dQZF1DWZeKCadgRdKQ"⟩]),
   ("stressed",
    [⟨"Stress Relief", "https://open.spotify.com/playlist/37i9dQZF1DX4sWSpwq3LiO"⟩,
     ⟨"Ambient Relaxation", "https://open.spotify.com/playlist/37i9dQZF1DX0SM0LYsmbMT"⟩]),
   ("calm", calm_playlists),
   ("excited",
    [⟨"Energy Boost", "https://open.spotify.com/playlist/37i9dQZF1DX76Wlfdnj7AP"⟩,
     ⟨"Upbeat Pop", "https://open.spotify.com/playlist/37i9dQZF1DXdPec7aLTmlC"⟩]),
   ("angry",
    [⟨"Anger Management", "https://open.spotify.com/playlist/37i9dQZF1DX4sWSpwq3LiO"⟩,
     ⟨"Calming Classical", "https://open.spotify.com/playlist/37i9dQZF1DWU0ScTcjJBdj"⟩]),
   ("energetic",
    [⟨"Workout Hits", "https://open.spotify.com/playlist/37i9dQZF1DX76Wlfdnj7AP"⟩,
     ⟨"High Energy", "https://open.spotify.com/playlist/37i9dQZF1DXdxcBWuJkbcy"⟩]),
   ("tired",
    [⟨"Gentle Acoustic", "https://open.spotify.com/playlist/37i9dQZF1DX0XUsuxWHRQd"⟩,
     ⟨"Soft Rock", "https://open.spotify.com/playlist/37i9dQZF1DWXRqgorJj26U"⟩]),
   ("content",
    [⟨"Chill Vibes", "https://open.spotify.com/playlist/37i9dQZF1DX0XUsuxWHRQd"⟩,
     ⟨"Sunday Morning", "https://open.spotify.com/playlist/37i9dQZF1DWU0ScTcjJBdj"⟩])]

/-- `SpotifyRecommendationService.emotion_to_mood`
(src/ai/services.py, lines 221-228). -/
def emotion_to_mood : List (String × String) :=
  [("joy", "happy"), ("sadness", "sad"), ("fear", "anxious"),
   ("anger", "angry"), ("surprise", "excited"), ("disgust", "angry")]

/-- `SpotifyRecommendationService.get_recommendations`
(src/ai/services.py, lines 208-234). -/
def SpotifyRecommendationService.get_recommendations (mood : String) :
    List Playlist :=
  let mood_key := pyLower mood
  let playlist_key := (dictGet emotion_to_mood mood_key).getD mood_key
  (dictGet mood_playlists playlist_key).getD calm_playlists

/-- Spec-side reading of "the premium expiry timestamp is strictly in the
future": the optional expiry is present and greater than `now`. -/
def expiryFuture (now : Nat) (o : Option Nat) : Prop :=
  ∃ e, o = some e ∧ now < e

instance (now : Nat) (o : Option Nat) : Decidable (expiryFuture now o) :=
  match o with
  | none => isFalse (fun ⟨_, he, _⟩ => Option.noConfusion he)
  | some e =>
      if h : now < e then isTrue ⟨e, rfl, h⟩
      else isFalse (fun ⟨_, he, hlt⟩ => by cases he; exact h hlt)

/-- Spec-side reading of "lastResetDate is null or strictly before today". -/
def resetDue (today : Nat) (o : Option Nat) : Prop :=
  o = none ∨ ∃ d, o = some d ∧ d < today

instance (today : Nat) (o : Option Nat) : Decidable (resetDue today o) :=
  match o with
  | none => isTrue (Or.inl rfl)
  | some d =>
      if h : d < today then isTrue (Or.inr ⟨d, rfl, h⟩)
      else
        isFalse (fun hc => by
          rcases hc with h1 | ⟨e, he, hlt⟩
          · exact Option.noConfusion h1
          · cases he; exact h hlt)

/-- The fields of the `MoodLog` row created by the analysis view
(src/moods/models.py, lines 28-41; src/ai/views.py, lines 166-175). -/
structure MoodLogEntry where
  mood : String
  intensity : ℤ
  note : String
  detected_emotion : String
  detected_confidence : ℚ
  advice : String
deriving DecidableEq, Repr

/-- The three response families of the analysis view: the 402 quota body,
the 400 validation body (with its `detail` message), and the 200 payload
(src/ai/views.py, lines 126-191). -/
inductive AnalyzeResponse where
  | quotaError (body : QuotaErrorBody)
  | validationError (detail : String)
  | ok (label : String) (score : ℚ) (advice : String)
       (music_recommendations : List Playlist) (ai_unavailable : Bool)
       (mood_log : Option MoodLogEntry)
deriving DecidableEq, Repr

/-- Whether a response is the 200 payload of an accepted analysis. -/
def AnalyzeResponse.isOk : AnalyzeResponse → Bool
  | .ok _ _ _ _ _ _ => true
  | _ => false

/-- The persisted record attached to a response, when any. -/
def AnalyzeResponse.moodLog : AnalyzeResponse → Option MoodLogEntry
  | .ok _ _ _ _ _ ml => ml
  | _ => none

/-- Result of one request to the analysis view: the user profile after the
request, the response, and whether the classifier was invoked. -/
structure AnalyzeOutcome where
  profile : UserProfile
  response : AnalyzeResponse
  classifier_called : Bool
deriving DecidableEq, Repr

/-- Python's `a or b` for an optional string `a`: `b` when `a` is `None`
or empty (`user_mood or emotion_result['label']`, src/ai/views.py,
line 169). -/
def pyOr (a : Option String) (b : String) : String :=
  match a with
  | some s => if s = "" then b else s
  | none => b

/-- `analyze_emotion` view (src/ai/views.py, lines 126-198): quota check
first, then text validation, then classification, advice, recommendations,
quota increment and the optional mood-log write. `raw_text` is the `text`
field of the request body (`''` when absent), `resp` the upstream outcome
the classifier would observe. -/
def Views.analyze_emotion (s : Settings) (now today : Nat) (p : UserProfile)
    (raw_text : String) (user_mood : Option String) (persist : Bool)
    (resp : HFResp) : AnalyzeOutcome :=
  match check_ai_quota s now today p with
  | (p1, some err) => ⟨p1, .quotaError err, false⟩
  | (p1, none) =>
      let text := pyStrip raw_text
      if text = "" then
        ⟨p1, .validationError "Text is required for analysis", false⟩
      else if text.length > 1000 then
        ⟨p1, .validationError "Text cannot exceed 1000 characters", false⟩
      else
        let emotion_result := HFClient.analyze_emotion s.HUGGINGFACE_API_TOKEN resp
        let advice := HFClient.generate_advice emotion_result.label text
        let recs := SpotifyRecommendationService.get_recommendations emotion_result.label
        let p2 := increment_ai_calls p1
        let mood_log :=
          if persist then
            some (⟨pyOr user_mood emotion_result.label,
                   min 10 (max 1 (int_trunc (emotion_result.score * 10))),
                   pyTake text 1000,
                   emotion_result.label,
                   emotion_result.score,
                   advice⟩ : MoodLogEntry)
          else none
        ⟨p2, .ok emotion_result.label emotion_result.score advice recs
              emotion_result.ai_unavailable mood_log, true⟩

/-- Spec-side reading of "the entry with the maximum score, ties broken by
first occurrence": `top` occurs in `es`, every entry strictly before that
occurrence has a strictly smaller score, and no entry has a larger one. -/
def FirstMax (top : String × ℚ) (es : List (String × ℚ)) : Prop :=
  (∃ pre suf, es = pre ++ top :: suf ∧ ∀ x ∈ pre, x.2 < top.2) ∧
  (∀ x ∈ es, x.2 ≤ top.2)

/-- Embed a list of (label, score) pairs as upstream entry objects. -/
def mkEntries (es : List (String × ℚ)) : List JVal :=
  es.map (fun p => JVal.obj (some p.1) (some p.2))

/-- Pack a (label, score) pair the way `extractEntries` sees it. -/
def entryOf (p : String × ℚ) : JVal × ℚ := (JVal.obj (some p.1) (some p.2), p.2)

/-- The disclaimer substring quoted by the specification. -/
def claimed_disclaimer_tail : String :=
  "general wellness advice, not a substitute for professional mental health support"

/-- The trailing part of the disclaimer the code actually appends. -/
def actual_disclaimer_tail : String :=
  "general wellness advice and not a substitute for professional mental health support."

lemma ensure_daily_reset_plan (today : Nat) (p : UserProfile) :
    (ensure_daily_reset today p).plan = p.plan := by
  unfold ensure_daily_reset
  cases p.last_ai_calls_reset with
  | none => rfl
  | some d => by_cases h : d < today <;> simp [h]

lemma ensure_daily_reset_expiry (today : Nat) (p : UserProfile) :
    (ensure_daily_reset today p).premium_expires_at = p.premium_expires_at := by
  unfold ensure_daily_reset
  cases p.last_ai_calls_reset with
  | none => rfl
  | some d => by_cases h : d < today <;> simp [h]

lemma is_premium_active_iff (now : Nat) (p : UserProfile) :
    p.is_premium_active now = true ↔
      (p.plan = Plan.PREMIUM ∧ expiryFuture now p.premium_expires_at) := by
  unfold UserProfile.is_premium_active expiryFuture
  cases hp : p.plan <;> cases he : p.premium_expires_at <;> simp [hp, he]

lemma quota_max_calls_eq (s : Settings) (now : Nat) (p : UserProfile) :
    quota_max_calls s now p =
      if p.plan = Plan.PREMIUM ∧ expiryFuture now p.premium_expires_at
      then s.PREMIUM_DAILY_AI_CALLS else s.FREE_DAILY_AI_CALLS := by
  unfold quota_max_calls
  by_cases h : p.plan = Plan.PREMIUM ∧ expiryFuture now p.premium_expires_at
  · rw [if_pos ((is_premium_active_iff now p).mpr h), if_pos h]
  · rw [if_neg h, if_neg]
    intro hb
    exact h ((is_premium_active_iff now p).mp hb)

/-- **C3.** `check_ai_quota` performs the daily reset first, computes the
ceiling as the premium ceiling exactly when the plan is PREMIUM and the
premium expiry is strictly in the future (otherwise the free ceiling), and
allows the call (returns no error body) iff `daily_ai_calls < max_calls`;
the rejection body carries the current count, the ceiling and the plan. -/
theorem check_ai_quota_spec (s : Settings) (now today : Nat) (p : UserProfile) :
    check_ai_quota s now today p =
      (ensure_daily_reset today p,
       if (ensure_daily_reset today p).daily_ai_calls <
           quota_max_calls s now (ensure_daily_reset today p)
       then none
       else some ⟨(ensure_daily_reset today p).daily_ai_calls,
                  quota_max_calls s now (ensure_daily_reset today p),
                  (ensure_daily_reset today p).plan⟩)
    ∧ quota_max_calls s now (ensure_daily_reset today p) =
        (if (ensure_daily_reset today p).plan = Plan.PREMIUM ∧
            expiryFuture now (ensure_daily_reset today p).premium_expires_at
         then s.PREMIUM_DAILY_AI_CALLS else s.FREE_DAILY_AI_CALLS) := by
  refine ⟨?_, quota_max_calls_eq s now (ensure_daily_reset today p)⟩
  simp only [check_ai_quota]
  cases Nat.lt_or_ge (ensure_daily_reset today p).daily_ai_calls
      (quota_max_calls s now (ensure_daily_reset today p)) with
  | inl h => rw [if_neg (Nat.not_le.mpr h), if_pos h]
  | inr h => rw [if_pos h, if_neg (Nat.not_lt.mpr h)]

/-- **C4.** `ensure_daily_reset` zeroes `daily_ai_calls` and stamps today
exactly when the last reset date is null or strictly before today, and it
is idempotent within one day: a second call on the same day changes
nothing. -/
theorem ensure_daily_reset_spec (today : Nat) (p : UserProfile) :
    (ensure_daily_reset today p =
      if resetDue today p.last_ai_calls_reset
      then { p with daily_ai_calls := 0, last_ai_calls_reset := some today }
      else p)
    ∧ ensure_daily_reset today (ensure_daily_reset today p) =
        ensure_daily_reset today p := by
  constructor
  · cases h : p.last_ai_calls_reset with
    | none =>
        have hr : resetDue today (none : Option Nat) := Or.inl rfl
        simp only [ensure_daily_reset, h]
        rw [if_pos hr]
    | some d =>
        by_cases hd : d < today
        · have hr : resetDue today (some d) := Or.inr ⟨d, rfl, hd⟩
          simp only [ensure_daily_reset, h]
          rw [if_pos hd, if_pos hr]
        · have hr : ¬ resetDue today (some d) := by
            rintro (h1 | ⟨e, he, hlt⟩)
            · exact Option.noConfusion h1
            · cases he; exact hd hlt
          simp only [ensure_daily_reset, h]
          rw [if_neg hd, if_neg hr]
  · cases h : p.last_ai_calls_reset with
    | none => simp [ensure_daily_reset, h, lt_self_iff_false]
    | some d =>
        by_cases hd : d < today
        · simp [ensure_daily_reset, h, hd, lt_self_iff_false]
        · simp [ensure_daily_reset, h, hd]

/-- **C10.** A profile whose plan is PREMIUM but whose premium expiry is
null is not premium-active, and the quota check applies the FREE ceiling
to it. -/
theorem premium_null_expiry_uses_free_ceiling (s : Settings) (now today : Nat)
    (p : UserProfile) (h1 : p.plan = Plan.PREMIUM)
    (h2 : p.premium_expires_at = none) :
    p.is_premium_active now = false ∧
    check_ai_quota s now today p =
      (ensure_daily_reset today p,
       if (ensure_daily_reset today p).daily_ai_calls < s.FREE_DAILY_AI_CALLS
       then none
       else some ⟨(ensure_daily_reset today p).daily_ai_calls,
                  s.FREE_DAILY_AI_CALLS, (ensure_daily_reset today p).plan⟩) := by
  have hmc : quota_max_calls s now (ensure_daily_reset today p) =
      s.FREE_DAILY_AI_CALLS := by
    rw [quota_max_calls_eq, if_neg]
    rintro ⟨-, e, hee, -⟩
    rw [ensure_daily_reset_expiry, h2] at hee
    exact Option.noConfusion hee
  constructor
  · unfold UserProfile.is_premium_active
    rw [h2]
    simp [h1]
  · rw [(check_ai_quota_spec s now today p).1, hmc]

/-- Witness for C10 at a concrete profile: plan PREMIUM, expiry null,
3 calls used, free ceiling 5 ⇒ not premium-active and the check admits the
call under the free ceiling. -/
theorem premium_null_expiry_uses_free_ceiling_witness :
    (UserProfile.is_premium_active ⟨Plan.PREMIUM, none, 3, some 7⟩ 100) = false ∧
    check_ai_quota ⟨5, 200, some "tok"⟩ 100 7 ⟨Plan.PREMIUM, none, 3, some 7⟩ =
      (ensure_daily_reset 7 ⟨Plan.PREMIUM, none, 3, some 7⟩,
       if (ensure_daily_reset 7 (⟨Plan.PREMIUM, none, 3, some 7⟩ : UserProfile)).daily_ai_calls < (5 : Nat)
       then none
       else some ⟨(ensure_daily_reset 7 (⟨Plan.PREMIUM, none, 3, some 7⟩ : UserProfile)).daily_ai_calls,
                  5, (ensure_daily_reset 7 (⟨Plan.PREMIUM, none, 3, some 7⟩ : UserProfile)).plan⟩) :=
  premium_null_expiry_uses_free_ceiling ⟨5, 200, some "tok"⟩ 100 7
    ⟨Plan.PREMIUM, none, 3, some 7⟩ rfl rfl

lemma pyMax_spec {α : Type} (key : α → ℚ) (b : α) (xs : List α) :
    (∃ pre suf, b :: xs = pre ++ pyMax key b xs :: suf ∧
        ∀ a ∈ pre, key a < key (pyMax key b xs)) ∧
    (∀ a ∈ b :: xs, key a ≤ key (pyMax key b xs)) := by
  induction xs generalizing b with
  | nil =>
      refine ⟨⟨[], [], rfl, by simp⟩, ?_⟩
      intro a ha
      rcases List.mem_cons.mp ha with rfl | ha
      · exact le_refl _
      · cases ha
  | cons x xs ih =>
      by_cases h : key b < key x
      · obtain ⟨⟨pre, suf, heq, hpre⟩, hmax⟩ := ih x
        have hrw : pyMax key b (x :: xs) = pyMax key x xs := by
          simp only [pyMax, if_pos h]
        rw [hrw]
        refine ⟨⟨b :: pre, suf, ?_, ?_⟩, ?_⟩
        · rw [List.cons_append, ← heq]
        · intro a ha
          rcases List.mem_cons.mp ha with rfl | ha
          · exact lt_of_lt_of_le h (hmax x (List.mem_cons_self x xs))
          · exact hpre a ha
        · intro a ha
          rcases List.mem_cons.mp ha with rfl | ha
          · exact le_of_lt (lt_of_lt_of_le h (hmax x (List.mem_cons_self x xs)))
          · exact hmax a ha
      · obtain ⟨⟨pre, suf, heq, hpre⟩, hmax⟩ := ih b
        have hrw : pyMax key b (x :: xs) = pyMax key b xs := by
          simp only [pyMax, if_neg h]
        rw [hrw]
        have hxb : key x ≤ key b := le_of_not_lt h
        cases pre with
        | nil =>
            simp only [List.nil_append, List.cons.injEq] at heq
            obtain ⟨hb, -⟩ := heq
            refine ⟨⟨[], x :: xs, by rw [← hb]; rfl, by simp⟩, ?_⟩
            intro a ha
            rcases List.mem_cons.mp ha with h1 | ha
            · rw [h1]
              exact hmax b (List.mem_cons_self b xs)
            · rcases List.mem_cons.mp ha with h1 | ha2
              · rw [h1]
                exact le_trans hxb (hmax b (List.mem_cons_self b xs))
              · exact hmax a (List.mem_cons_of_mem b ha2)
        | cons ph pt =>
            simp only [List.cons_append, List.cons.injEq] at heq
            obtain ⟨hb, hxs⟩ := heq
            have hbm : key b < key (pyMax key b xs) := by
              have := hpre ph (List.mem_cons_self ph pt)
              rwa [← hb] at this
            refine ⟨⟨b :: x :: pt, suf, ?_, ?_⟩, ?_⟩
            · simp only [List.cons_append]
              rw [← hxs]
            · intro a ha
              rcases List.mem_cons.mp ha with h1 | ha
              · rw [h1]
                exact hbm
              · rcases List.mem_cons.mp ha with h1 | ha2
                · rw [h1]
                  exact lt_of_le_of_lt hxb hbm
                · exact hpre a (List.mem_cons_of_mem ph ha2)
            · intro a ha
              rcases List.mem_cons.mp ha with h1 | ha
              · rw [h1]
                exact hmax b (List.mem_cons_self b xs)
              · rcases List.mem_cons.mp ha with h1 | ha2
                · rw [h1]
                  exact le_trans hxb (hmax b (List.mem_cons_self b xs))
                · exact hmax a (List.mem_cons_of_mem b ha2)

lemma extract_mkEntries (es : List (String × ℚ)) :
    extractEntries (mkEntries es) = some (es.map entryOf) := by
  induction es with
  | nil => rfl
  | cons e es ih =>
      simp only [mkEntries, List.map_cons, extractEntries, JVal.getScore] at ih ⊢
      rw [ih]
      rfl

lemma pyMax_map_entryOf (b : String × ℚ) (xs : List (String × ℚ)) :
    pyMax (fun q => q.2) (entryOf b) (xs.map entryOf) =
      entryOf (pyMax (fun p => p.2) b xs) := by
  induction xs generalizing b with
  | nil => rfl
  | cons x xs ih =>
      simp only [List.map_cons, pyMax]
      by_cases h : b.2 < x.2
      · have h' : (entryOf b).2 < (entryOf x).2 := h
        rw [if_pos h', if_pos h, ih]
      · have h' : ¬ (entryOf b).2 < (entryOf x).2 := h
        rw [if_neg h', if_neg h, ih]

lemma topEntry_mkEntries (l : String) (sc : ℚ) (es : List (String × ℚ)) :
    topEntry (mkEntries ((l, sc) :: es)) =
      some (pyMax (fun p => p.2) (l, sc) es) := by
  have h1 : topEntry (mkEntries ((l, sc) :: es)) =
      (match (pyMax (fun q => q.2) (entryOf (l, sc))
          (es.map entryOf)).1.getLabel with
       | none => none
       | some lab =>
           some (lab, (pyMax (fun q => q.2) (entryOf (l, sc))
             (es.map entryOf)).2)) := by
    unfold topEntry
    rw [extract_mkEntries]
    simp only [List.map_cons]
  rw [h1, pyMax_map_entryOf]
  rfl

lemma parse_mkEntries (l : String) (sc : ℚ) (es : List (String × ℚ)) :
    parse_hf_result (.arr (mkEntries ((l, sc) :: es))) =
      some (pyMax (fun p => p.2) (l, sc) es) := by
  have hshape : parse_hf_result (.arr (mkEntries ((l, sc) :: es))) =
      topEntry (mkEntries ((l, sc) :: es)) := by
    simp only [mkEntries, List.map_cons]
    rfl
  rw [hshape, topEntry_mkEntries]

lemma parse_mkEntries_nested (l : String) (sc : ℚ) (es : List (String × ℚ))
    (rest : List JVal) :
    parse_hf_result (.arr (.arr (mkEntries ((l, sc) :: es)) :: rest)) =
      some (pyMax (fun p => p.2) (l, sc) es) := by
  have hshape : parse_hf_result (.arr (.arr (mkEntries ((l, sc) :: es)) :: rest)) =
      topEntry (mkEntries ((l, sc) :: es)) := rfl
  rw [hshape, topEntry_mkEntries]


/-- **C5.** The classifier gateway never propagates a failure to its
caller: with no credential configured it returns the neutral degraded
value, label "neutral", score 0.5, `ai_unavailable` (the degraded flag)
true, and makes no network call; with a credential it returns the same
value on any transport error, timeout or non-2xx status (`.exn`) and on
any payload whose handling fails (`parse_hf_result _ = none`). -/
theorem hf_analyze_emotion_failure_spec (api_token : Option String)
    (resp : HFResp) :
    neutral_result = ⟨"neutral", 1/2, true⟩ ∧
    (tokenConfigured api_token = false →
      HFClient.analyze_emotion api_token resp = neutral_result ∧
      hf_network_called api_token = false) ∧
    HFClient.analyze_emotion api_token .exn = neutral_result ∧
    (∀ v, parse_hf_result v = none →
      HFClient.analyze_emotion api_token (.json v) = neutral_result) := by
  refine ⟨rfl, ?_, ?_, ?_⟩
  · intro h
    exact ⟨by simp [HFClient.analyze_emotion, h], h⟩
  · cases ht : tokenConfigured api_token <;>
      simp [HFClient.analyze_emotion, ht]
  · intro v hv
    cases ht : tokenConfigured api_token <;>
      simp [HFClient.analyze_emotion, ht, hv]

/-- Witness for C5 at concrete inputs: no token with a transport error,
and a configured token with a transport error and with a non-list
payload. -/
theorem hf_analyze_emotion_failure_witness :
    tokenConfigured none = false ∧
    (HFClient.analyze_emotion none .exn = neutral_result ∧
      hf_network_called none = false) ∧
    HFClient.analyze_emotion (some "tok") .exn = neutral_result ∧
    parse_hf_result JVal.other = none ∧
    HFClient.analyze_emotion (some "tok") (.json .other) = neutral_result :=
  ⟨rfl, (hf_analyze_emotion_failure_spec none .exn).2.1 rfl,
   (hf_analyze_emotion_failure_spec (some "tok") .exn).2.2.1, rfl,
   (hf_analyze_emotion_failure_spec (some "tok") (.json .other)).2.2.2
      JVal.other rfl⟩

/-- **C6.** On a successful upstream response with a configured
credential, the gateway accepts both the flat list of entries and the
singly-nested shape (taking the inner list, whatever follows it), selects
the entry with the maximum score with ties broken by first occurrence in
emission order, lower-cases its label and rounds its score to three
decimal places; an empty payload, an empty inner list or a non-list
payload falls back to the neutral degraded value. -/
theorem hf_analyze_emotion_success_spec (api_token : Option String)
    (htok : tokenConfigured api_token = true) (l : String) (sc : ℚ)
    (es : List (String × ℚ)) (rest : List JVal) :
    ∃ top : String × ℚ,
      FirstMax top ((l, sc) :: es) ∧
      HFClient.analyze_emotion api_token
          (.json (.arr (mkEntries ((l, sc) :: es)))) =
        ⟨pyLower top.1, round3 top.2, false⟩ ∧
      HFClient.analyze_emotion api_token
          (.json (.arr (.arr (mkEntries ((l, sc) :: es)) :: rest))) =
        ⟨pyLower top.1, round3 top.2, false⟩ ∧
      HFClient.analyze_emotion api_token (.json (.arr [])) = neutral_result ∧
      HFClient.analyze_emotion api_token (.json (.arr (.arr [] :: rest))) =
        neutral_result ∧
      HFClient.analyze_emotion api_token (.json .other) = neutral_result := by
  have htok' : (tokenConfigured api_token = false) = False := by simp [htok]
  refine ⟨pyMax (fun p => p.2) (l, sc) es, ?_, ?_, ?_, ?_, ?_, ?_⟩
  · exact pyMax_spec (fun p => p.2) (l, sc) es
  · simp [HFClient.analyze_emotion, htok', parse_mkEntries]
  · simp [HFClient.analyze_emotion, htok', parse_mkEntries_nested]
  · simp [HFClient.analyze_emotion, htok', parse_hf_result]
  · simp [HFClient.analyze_emotion, htok', parse_hf_result, topEntry,
      extractEntries]
  · simp [HFClient.analyze_emotion, htok', parse_hf_result]

/-- Witness for C6 at a concrete payload: entries Joy/0.95, SADNESS/0.95,
anger/0.3, with a trailing outer element in the nested shape. -/
theorem hf_analyze_emotion_success_witness :
    tokenConfigured (some "t") = true ∧
    (∃ top : String × ℚ,
      FirstMax top [("Joy", 95/100), ("SADNESS", 95/100), ("anger", 3/10)] ∧
      HFClient.analyze_emotion (some "t")
          (.json (.arr (mkEntries
            [("Joy", 95/100), ("SADNESS", 95/100), ("anger", 3/10)]))) =
        ⟨pyLower top.1, round3 top.2, false⟩ ∧
      HFClient.analyze_emotion (some "t")
          (.json (.arr (.arr (mkEntries
            [("Joy", 95/100), ("SADNESS", 95/100), ("anger", 3/10)]) ::
              [JVal.other]))) =
        ⟨pyLower top.1, round3 top.2, false⟩ ∧
      HFClient.analyze_emotion (some "t") (.json (.arr [])) = neutral_result ∧
      HFClient.analyze_emotion (some "t")
          (.json (.arr (.arr [] :: [JVal.other]))) = neutral_result ∧
      HFClient.analyze_emotion (some "t") (.json .other) = neutral_result) :=
  ⟨rfl, hf_analyze_emotion_success_spec (some "t") rfl "Joy" (95/100)
      [("SADNESS", 95/100), ("anger", 3/10)] [JVal.other]⟩

lemma generate_advice_split (label text : String) :
    HFClient.generate_advice label text =
      ((dictGet advice_templates
          ((dictGet emotion_mapping (pyLower label)).getD
            (pyLower label))).getD generic_advice) ++ advice_disclaimer := rfl

lemma generate_advice_template_infix (k text : String) :
    ((dictGet advice_templates
        ((dictGet emotion_mapping (pyLower k)).getD (pyLower k))).getD
      generic_advice).data <:+: (HFClient.generate_advice k text).data := by
  rw [generate_advice_split, String.data_append]
  exact (List.prefix_append _ _).isInfix

set_option maxRecDepth 4000 in
lemma actual_tail_suffix_disclaimer :
    actual_disclaimer_tail.data <:+ advice_disclaimer.data := by decide

/-- **C8 (amended).** `generate_advice` lower-cases the label, remaps it
through the advice remap table (falling back to the label itself as
bucket key), selects that bucket's template or the generic
"all emotions are valid" template, and appends the fixed disclaimer; every
returned string ends with the disclaimer substring "general wellness
advice and not a substitute for professional mental health support.", and
for every label in the remap table the output contains the canonical
bucket's template. -/
theorem generate_advice_spec :
    (∀ label text, HFClient.generate_advice label text =
        ((dictGet advice_templates
            ((dictGet emotion_mapping (pyLower label)).getD
              (pyLower label))).getD generic_advice) ++ advice_disclaimer) ∧
    (∀ label text,
        actual_disclaimer_tail.data <:+
          (HFClient.generate_advice label text).data) ∧
    (∀ k v, (k, v) ∈ emotion_mapping → ∀ text, ∃ tmpl,
        dictGet advice_templates v = some tmpl ∧
        tmpl.data <:+: (HFClient.generate_advice k text).data) := by
  refine ⟨generate_advice_split, ?_, ?_⟩
  · intro label text
    have h2 : advice_disclaimer.data <:+
        (HFClient.generate_advice label text).data := by
      rw [generate_advice_split, String.data_append]
      exact List.suffix_append _ _
    exact actual_tail_suffix_disclaimer.trans h2
  · intro k v hkv text
    refine ⟨((dictGet advice_templates
        ((dictGet emotion_mapping (pyLower k)).getD (pyLower k))).getD
      generic_advice), ?_, generate_advice_template_infix k text⟩
    fin_cases hkv <;> rfl

set_option maxRecDepth 16000 in
/-- Counterexample to C8 as stated: the substring the specification quotes,
"general wellness advice, not a substitute for professional mental health
support", is neither a suffix nor even a substring of the advice returned
for the label "joy" — the code's disclaimer reads "... advice and not a
substitute ..." and ends with a period. -/
theorem generate_advice_claimed_tail_cex :
    ¬ (claimed_disclaimer_tail.data <:+
        (HFClient.generate_advice "joy" "").data) ∧
    ¬ (claimed_disclaimer_tail.data <:+:
        (HFClient.generate_advice "joy" "").data) := by
  constructor
  · decide
  · decide

/-- Witness for C8's remap-table clause at the concrete pair
("grief", "sadness"). -/
theorem generate_advice_spec_witness :
    ("grief", "sadness") ∈ emotion_mapping ∧
    (∃ tmpl, dictGet advice_templates "sadness" = some tmpl ∧
      tmpl.data <:+: (HFClient.generate_advice "grief" "sample").data) :=
  ⟨by decide, generate_advice_spec.2.2 "grief" "sadness" (by decide) "sample"⟩

lemma dictGet_mem {α : Type} :
    ∀ (m : List (String × α)) (k : String) (v : α),
      dictGet m k = some v → v ∈ m.map Prod.snd := by
  intro m
  induction m with
  | nil =>
      intro k v h
      simp [dictGet] at h
  | cons hd tl ih =>
      obtain ⟨k₁, v₁⟩ := hd
      intro k v h
      simp only [dictGet] at h
      by_cases hk : k = k₁
      · rw [if_pos hk] at h
        injection h with h1
        simp [← h1]
      · rw [if_neg hk] at h
        simp only [List.map_cons]
        exact List.mem_cons_of_mem _ (ih k v h)

/-- **C9.** `get_recommendations` always returns a non-empty list, and for
every input whose lower-cased, remapped key is absent from the playlist
table it returns exactly the calm bucket's list, the same for every such
input. -/
theorem get_recommendations_spec (mood : String) :
    SpotifyRecommendationService.get_recommendations mood ≠ [] ∧
    (dictGet mood_playlists
        ((dictGet emotion_to_mood (pyLower mood)).getD (pyLower mood)) =
          none →
      SpotifyRecommendationService.get_recommendations mood =
        calm_playlists) := by
  have hrw : SpotifyRecommendationService.get_recommendations mood =
      (dictGet mood_playlists
        ((dictGet emotion_to_mood (pyLower mood)).getD
          (pyLower mood))).getD calm_playlists := rfl
  constructor
  · rw [hrw]
    cases h : dictGet mood_playlists
        ((dictGet emotion_to_mood (pyLower mood)).getD (pyLower mood)) with
    | none =>
        simp only [Option.getD_none]
        decide
    | some v =>
        simp only [Option.getD_some]
        have hv := dictGet_mem mood_playlists _ v h
        have hall : ∀ lst ∈ mood_playlists.map Prod.snd, lst ≠ [] := by decide
        exact hall v hv
  · intro h
    rw [hrw, h]
    rfl

/-- Witness for C9's fallback clause at the unrecognized mood
"unknown_mood". -/
theorem get_recommendations_spec_witness :
    dictGet mood_playlists
        ((dictGet emotion_to_mood (pyLower "unknown_mood")).getD
          (pyLower "unknown_mood")) = none ∧
    SpotifyRecommendationService.get_recommendations "unknown_mood" =
      calm_playlists :=
  ⟨by decide, (get_recommendations_spec "unknown_mood").2 (by decide)⟩

/-- **C1.** When the user's quota is exhausted after the daily reset
(post-reset `daily_ai_calls` at or above the ceiling), `analyze_emotion`
returns the 402 quota body carrying the current count, the ceiling and the
plan, calls no classifier, and leaves the counter at its post-reset value;
when quota remains but the text is empty after trimming or longer than
1000 characters, it returns a 400 validation response, again with no
classifier call and no increment. -/
theorem analyze_quota_and_validation_spec (s : Settings) (now today : Nat)
    (p : UserProfile) (raw_text : String) (user_mood : Option String)
    (persist : Bool) (resp : HFResp) :
    (quota_max_calls s now (ensure_daily_reset today p) ≤
        (ensure_daily_reset today p).daily_ai_calls →
      Views.analyze_emotion s now today p raw_text user_mood persist resp =
        ⟨ensure_daily_reset today p,
         .quotaError ⟨(ensure_daily_reset today p).daily_ai_calls,
                      quota_max_calls s now (ensure_daily_reset today p),
                      (ensure_daily_reset today p).plan⟩,
         false⟩) ∧
    ((ensure_daily_reset today p).daily_ai_calls <
        quota_max_calls s now (ensure_daily_reset today p) →
      (pyStrip raw_text = "" ∨ 1000 < (pyStrip raw_text).length) →
      ∃ d,
        Views.analyze_emotion s now today p raw_text user_mood persist resp =
          ⟨ensure_daily_reset today p, .validationError d, false⟩) := by
  have hc := (check_ai_quota_spec s now today p).1
  constructor
  · intro hq
    simp only [Views.analyze_emotion]
    rw [hc, if_neg (Nat.not_lt.mpr hq)]
  · intro hq hbad
    simp only [Views.analyze_emotion]
    rw [hc, if_pos hq]
    by_cases hte : pyStrip raw_text = ""
    · refine ⟨"Text is required for analysis", ?_⟩
      simp [hte]
    · have hlong : 1000 < (pyStrip raw_text).length := hbad.resolve_left hte
      refine ⟨"Text cannot exceed 1000 characters", ?_⟩
      simp [hte, hlong]

/-- Witness for C1: a free user with 2 of 2 calls used is rejected with
the 402 body, and a free user with quota left sending whitespace-only
text gets the validation response; neither run calls the classifier or
changes the counter. -/
theorem analyze_quota_and_validation_witness :
    (Views.analyze_emotion ⟨2, 5, some "tok"⟩ 0 7 ⟨Plan.FREE, none, 2, some 7⟩
        "hi" none false .exn =
      ⟨ensure_daily_reset 7 ⟨Plan.FREE, none, 2, some 7⟩,
       .quotaError
         ⟨(ensure_daily_reset 7 (⟨Plan.FREE, none, 2, some 7⟩ : UserProfile)).daily_ai_calls,
          quota_max_calls ⟨2, 5, some "tok"⟩ 0
            (ensure_daily_reset 7 ⟨Plan.FREE, none, 2, some 7⟩),
          (ensure_daily_reset 7 (⟨Plan.FREE, none, 2, some 7⟩ : UserProfile)).plan⟩,
       false⟩) ∧
    (∃ d,
      Views.analyze_emotion ⟨2, 5, some "tok"⟩ 0 7 ⟨Plan.FREE, none, 0, some 7⟩
          "   " none false .exn =
        ⟨ensure_daily_reset 7 ⟨Plan.FREE, none, 0, some 7⟩,
         .validationError d, false⟩) :=
  ⟨(analyze_quota_and_validation_spec ⟨2, 5, some "tok"⟩ 0 7
      ⟨Plan.FREE, none, 2, some 7⟩ "hi" none false .exn).1 (by decide),
   (analyze_quota_and_validation_spec ⟨2, 5, some "tok"⟩ 0 7
      ⟨Plan.FREE, none, 0, some 7⟩ "   " none false .exn).2 (by decide)
      (Or.inl (by decide))⟩

/-- **C2.** Every accepted analysis (one whose response is the 200 payload,
degraded or not) leaves the user's counter at exactly the post-reset value
plus one, and that value never exceeds the profile's plan ceiling. -/
theorem analyze_accept_increments_spec (s : Settings) (now today : Nat)
    (p : UserProfile) (raw_text : String) (user_mood : Option String)
    (persist : Bool) (resp : HFResp) :
    (Views.analyze_emotion s now today p raw_text user_mood persist
        resp).response.isOk = true →
      (Views.analyze_emotion s now today p raw_text user_mood persist
          resp).profile.daily_ai_calls =
        (ensure_daily_reset today p).daily_ai_calls + 1 ∧
      (Views.analyze_emotion s now today p raw_text user_mood persist
          resp).profile.daily_ai_calls ≤
        quota_max_calls s now
          (Views.analyze_emotion s now today p raw_text user_mood persist
            resp).profile := by
  intro hok
  have hc := (check_ai_quota_spec s now today p).1
  simp only [Views.analyze_emotion] at hok ⊢
  rw [hc] at hok ⊢
  by_cases hq : (ensure_daily_reset today p).daily_ai_calls <
      quota_max_calls s now (ensure_daily_reset today p)
  · rw [if_pos hq] at hok ⊢
    by_cases hte : pyStrip raw_text = ""
    · simp [hte, AnalyzeResponse.isOk] at hok
    · by_cases hlen : 1000 < (pyStrip raw_text).length
      · simp [hte, hlen, AnalyzeResponse.isOk] at hok
      · have hmc : quota_max_calls s now
            (increment_ai_calls (ensure_daily_reset today p)) =
            quota_max_calls s now (ensure_daily_reset today p) := rfl
        have hmc2 : quota_max_calls s now
            (⟨(ensure_daily_reset today p).plan,
              (ensure_daily_reset today p).premium_expires_at,
              (ensure_daily_reset today p).daily_ai_calls + 1,
              (ensure_daily_reset today p).last_ai_calls_reset⟩ : UserProfile) =
            quota_max_calls s now (ensure_daily_reset today p) := rfl
        constructor
        · simp [hte, hlen, increment_ai_calls]
        · simp [hte, hlen, increment_ai_calls, hmc, hmc2]
          omega
  · rw [if_neg hq] at hok
    simp [AnalyzeResponse.isOk] at hok

/-- Witness for C2: a degraded run (no credential, transport failure)
still counts as accepted and moves the counter from 1 to 2, within the
free ceiling of 5. -/
theorem analyze_accept_increments_witness :
    (Views.analyze_emotion ⟨5, 200, none⟩ 0 7 ⟨Plan.FREE, none, 1, some 7⟩
        "ok" none false .exn).response.isOk = true ∧
    ((Views.analyze_emotion ⟨5, 200, none⟩ 0 7 ⟨Plan.FREE, none, 1, some 7⟩
        "ok" none false .exn).profile.daily_ai_calls =
      (ensure_daily_reset 7 ⟨Plan.FREE, none, 1, some 7⟩).daily_ai_calls + 1 ∧
     (Views.analyze_emotion ⟨5, 200, none⟩ 0 7 ⟨Plan.FREE, none, 1, some 7⟩
        "ok" none false .exn).profile.daily_ai_calls ≤
      quota_max_calls ⟨5, 200, none⟩ 0
        (Views.analyze_emotion ⟨5, 200, none⟩ 0 7 ⟨Plan.FREE, none, 1, some 7⟩
          "ok" none false .exn).profile) :=
  ⟨by decide,
   analyze_accept_increments_spec ⟨5, 200, none⟩ 0 7 ⟨Plan.FREE, none, 1, some 7⟩
     "ok" none false .exn (by decide)⟩

/-- **C7 (amended).** For every accepted analysis with `persist` set, the
created mood-log row has: mood equal to the caller-supplied mood when it
is provided and non-empty (Python `or`), otherwise the classifier label;
intensity equal to `min(10, max(1, int(score * 10)))`, i.e. the score
scaled by ten, truncated toward zero and clamped to [1, 10]; note equal to
the trimmed text truncated to 1000 characters; and detected emotion,
detected confidence and advice taken from the classification and advice
steps. -/
theorem analyze_persist_spec (s : Settings) (now today : Nat)
    (p : UserProfile) (raw_text : String) (user_mood : Option String)
    (resp : HFResp) (label : String) (score : ℚ) (advice : String)
    (recs : List Playlist) (deg : Bool) (ml : MoodLogEntry) :
    (Views.analyze_emotion s now today p raw_text user_mood true
        resp).response = .ok label score advice recs deg (some ml) →
    ml.mood = pyOr user_mood label ∧
    ml.intensity = min 10 (max 1 (int_trunc (score * 10))) ∧
    ml.note = pyTake (pyStrip raw_text) 1000 ∧
    ml.detected_emotion = label ∧
    ml.detected_confidence = score ∧
    ml.advice = advice ∧
    advice = HFClient.generate_advice label (pyStrip raw_text) ∧
    recs = SpotifyRecommendationService.get_recommendations label := by
  intro hok
  have hc := (check_ai_quota_spec s now today p).1
  simp only [Views.analyze_emotion] at hok
  rw [hc] at hok
  by_cases hq : (ensure_daily_reset today p).daily_ai_calls <
      quota_max_calls s now (ensure_daily_reset today p)
  · rw [if_pos hq] at hok
    by_cases hte : pyStrip raw_text = ""
    · simp [hte] at hok
    · by_cases hlen : 1000 < (pyStrip raw_text).length
      · simp [hte, hlen] at hok
      · simp only [hte, hlen, if_false, if_true, ite_false, ite_true] at hok
        simp [AnalyzeResponse.ok.injEq] at hok
        obtain ⟨h1, h2, h3, h4, h5, h6⟩ := hok
        subst h1
        subst h2
        subst h3
        subst h4
        subst h5
        subst h6
        exact ⟨rfl, rfl, rfl, rfl, rfl, rfl, rfl, rfl⟩
  · rw [if_neg hq] at hok
    simp at hok

/-- Counterexample to C7 as stated: for classifier score 0.95 the code
stores intensity `int(0.95 * 10) = 9` (truncation), while the claim's
formula `clamp(round(0.95 * 10), 1, 10)` gives 10. -/
theorem analyze_persist_round_cex :
    (Views.analyze_emotion ⟨5, 200, some "tok"⟩ 0 7 ⟨Plan.FREE, none, 0, some 7⟩
        "I feel great" none true
        (.json (.arr (mkEntries [("joy", 19/20)])))).response.moodLog =
      some ⟨"joy", 9, "I feel great", "joy", 19/20,
            HFClient.generate_advice "joy" "I feel great"⟩ ∧
    (9 : ℤ) ≠ min 10 (max 1 (round ((19/20 : ℚ) * 10))) := by
  constructor
  · have hml : pyLower "joy" = "joy" := by decide
    have hparse := parse_mkEntries "joy" (19/20) []
    have hclass : HFClient.analyze_emotion (some "tok")
        (.json (.arr (mkEntries [("joy", (19:ℚ)/20)]))) =
        ⟨"joy", round3 (19/20), false⟩ := by
      simp [HFClient.analyze_emotion, tokenConfigured, hparse, pyMax, hml]
    have hr3 : round3 ((19:ℚ)/20) = 19/20 := by
      norm_num [round3, roundHalfEven]
    have hint : min 10 (max 1 (int_trunc ((19/20 : ℚ) * 10))) = 9 := by
      norm_num [int_trunc]
    have hchk : check_ai_quota ⟨5, 200, some "tok"⟩ 0 7
        ⟨Plan.FREE, none, 0, some 7⟩ = (⟨Plan.FREE, none, 0, some 7⟩, none) := by
      decide
    have hstrip : pyStrip "I feel great" = "I feel great" := by decide
    have htak : pyTake "I feel great" 1000 = "I feel great" := by decide
    have hlenf : ¬ (1000 < ("I feel great" : String).length) := by decide
    simp only [Views.analyze_emotion]
    rw [hchk]
    simp [hstrip, hlenf, hclass, hr3, hint, htak, AnalyzeResponse.moodLog, pyOr]
  · rw [round_eq]
    norm_num

/-- Witness for C7 (amended) at a concrete degraded, persisted run with a
caller-supplied mood. -/
theorem analyze_persist_spec_witness :
    ((Views.analyze_emotion ⟨5, 200, none⟩ 0 7 ⟨Plan.FREE, none, 0, some 7⟩
        "good" (some "calm") true .exn).response =
      .ok "neutral" (1/2) (HFClient.generate_advice "neutral" "good")
        (SpotifyRecommendationService.get_recommendations "neutral") true
        (some ⟨"calm", min 10 (max 1 (int_trunc ((1/2 : ℚ) * 10))), "good",
               "neutral", 1/2, HFClient.generate_advice "neutral" "good"⟩)) ∧
    ("calm" = pyOr (some "calm") "neutral" ∧
     min 10 (max 1 (int_trunc ((1/2 : ℚ) * 10))) =
       min 10 (max 1 (int_trunc ((1/2 : ℚ) * 10))) ∧
     "good" = pyTake (pyStrip "good") 1000 ∧
     "neutral" = "neutral" ∧
     (1/2 : ℚ) = 1/2 ∧
     HFClient.generate_advice "neutral" "good" =
       HFClient.generate_advice "neutral" "good" ∧
     HFClient.generate_advice "neutral" "good" =
       HFClient.generate_advice "neutral" (pyStrip "good") ∧
     SpotifyRecommendationService.get_recommendations "neutral" =
       SpotifyRecommendationService.get_recommendations "neutral") := by
  have h : (Views.analyze_emotion ⟨5, 200, none⟩ 0 7 ⟨Plan.FREE, none, 0, some 7⟩
      "good" (some "calm") true .exn).response =
      .ok "neutral" (1/2) (HFClient.generate_advice "neutral" "good")
        (SpotifyRecommendationService.get_recommendations "neutral") true
        (some ⟨"calm", min 10 (max 1 (int_trunc ((1/2 : ℚ) * 10))), "good",
               "neutral", 1/2, HFClient.generate_advice "neutral" "good"⟩) := rfl
  exact ⟨h,
    analyze_persist_spec ⟨5, 200, none⟩ 0 7 ⟨Plan.FREE, none, 0, some 7⟩
      "good" (some "calm") .exn "neutral" (1/2)
      (HFClient.generate_advice "neutral" "good")
      (SpotifyRecommendationService.get_recommendations "neutral") true
      ⟨"calm", min 10 (max 1 (int_trunc ((1/2 : ℚ) * 10))), "good",
       "neutral", 1/2, HFClient.generate_advice "neutral" "good"⟩ h⟩
